import Mathlib

/-!
Shallow embedding of `src/gnuplot_i.c` / `src/gnuplot_i.h` (a C adapter that
drives a gnuplot process through a one-directional pipe), together with
theorems settling the frozen claims about it.

Modelling conventions:
* The session handle `gnuplot_ctrl` keeps the three plot-state fields of the C
  struct (`nplots`, `pstyle`, `multiplot`).  The `FILE* gnucmd` pipe and the
  `char* BUF` pointer are channel resources; they carry no plot state and are
  modelled only where a claim needs them (`gnuplot_close`).  Note that no
  function in `gnuplot_i.c` ever touches `BUF` or reads `multiplot`.
* Every line written to the pipe is one `Sent` event: the line plus whether
  `fflush` was called after it (`gnuplot_cmd` always flushes).
* Numeric tokens (`%11le`, `%.18e`) are kept symbolic in the `Line` type: the
  claims concern line structure, verbs, titles and counts, never the decimal
  rendering of a double, which is floating-point textual formatting outside
  the embedding.  Double values are carried opaquely as `Float`.
* A C function that dereferences a null pointer, writes past a fixed buffer or
  reads past the end of an array has undefined behavior; such an execution is
  modelled as the single outcome `Outcome.ub` (the trace emitted before the
  fault is absorbed, since UB invalidates the whole execution).
* Nullable C pointers/arrays are `Option _`; C `int` is `Int`.
-/

/-- One line written to the gnuplot pipe.  `text` is a fully formatted command
(headers, `e` markers, `set ...`); `rec1`/`rec2` are the `%11le` /
`%11le %11le` inline data records of the series emitters; `slopeExpr` is the
`%s %.18e * x + %.18e title "%s" with %s` line of `gnuplot_plot_slope`, kept
structured because of its two numeric fields. -/
inductive Line where
  | text (s : String)
  | rec1 (v : Float)
  | rec2 (x y : Float)
  | slopeExpr (verb : String) (a b : Float) (title style : String)

/-- One write to the pipe: the line plus whether the stream was flushed
afterwards.  `gnuplot_cmd` appends a newline and calls `fflush`, so every line
it sends has `flushed = true`. -/
structure Sent where
  line : Line
  flushed : Bool

/-- Whether a sent line is an inline numeric data record. -/
def Sent.isData (s : Sent) : Bool :=
  match s.line with
  | Line.rec1 _ => true
  | Line.rec2 _ _ => true
  | _ => false

/-- Whether a sent line is the end-of-data marker `e`. -/
def Sent.isEndMarker (s : Sent) : Bool :=
  match s.line with
  | Line.text t => t == "e"
  | _ => false

/-- The plot-state fields of `struct _GNUPLOT_CTRL_` in `gnuplot_i.h`:
`int nplots`, `char pstyle[128]`, `int multiplot`. -/
structure gnuplot_ctrl where
  nplots : Int
  pstyle : String
  multiplot : Bool
deriving DecidableEq

/-- Result of one API call: `ub` is an execution with undefined behavior;
`ok sent handle` is a normal return that wrote `sent` to the pipe and left the
session in state `handle` (`none` when the caller passed a null handle). -/
inductive Outcome where
  | ub
  | ok (sent : List Sent) (handle : Option gnuplot_ctrl)

/-- The lines a call wrote to the pipe (empty for an undefined execution). -/
def Outcome.sentLines : Outcome → List Sent
  | Outcome.ub => []
  | Outcome.ok s _ => s

/-- The first sent line, when it is a `text` line. -/
def Outcome.firstText : Outcome → Option String
  | Outcome.ok (⟨Line.text s, _⟩ :: _) _ => some s
  | _ => none

/-- The session state returned by a normal call. -/
def Outcome.state : Outcome → Option gnuplot_ctrl
  | Outcome.ub => none
  | Outcome.ok _ h => h

/-- Model of `gnuplot_cmd` (gnuplot_i.c:87-97): `vfprintf` the formatted line,
append a newline, `fflush`.  One call sends one flushed line. -/
def gnuplot_cmd (l : Line) : Sent :=
  { line := l, flushed := true }

/-- Modelled from the spec: `gnuplot_printf` is declared in `gnuplot_i.h`
(lines 126-155) but its body is not among the sources.  Per the spec it is the
non-flushing variant of `gnuplot_cmd`, for high-volume inline data. -/
def gnuplot_printf (l : Line) : Sent :=
  { line := l, flushed := false }

/-- The allow-list of `gnuplot_setstyle` (gnuplot_i.c:101): the argument is
compared by `strcmp` against these nine literals. -/
def styleAllowList : List String :=
  ["lines", "points", "linespoints", "impulses", "dots", "steps",
   "errorbars", "boxes", "boxerrorbars"]

/-- Model of `gnuplot_setstyle` (gnuplot_i.c:99-107).  Returns (warning
written to stderr?, updated handle).  If the argument matches none of the nine
allowed styles the function warns and stores `"points"`, otherwise it stores
the argument; it never fails. -/
def gnuplot_setstyle (h : gnuplot_ctrl) (plot_style : String) : Bool × gnuplot_ctrl :=
  if plot_style ∉ styleAllowList then
    (true, { h with pstyle := "points" })
  else
    (false, { h with pstyle := plot_style })

/-- Model of `gnuplot_resetplot` (gnuplot_i.c:119-122): `handle->nplots = 0;`
and nothing else. -/
def gnuplot_resetplot (h : gnuplot_ctrl) : gnuplot_ctrl :=
  { h with nplots := 0 }

/-- Resource effect of `gnuplot_close` (gnuplot_i.c:78-85).  The input models
`pclose(handle->gnucmd) == -1`.  On `pclose` failure the function prints a
diagnostic and returns early; `free(handle)` runs only on the success path.
(No other resource exists to release: nothing in `gnuplot_i.c` ever allocates
the struct's `BUF` pointer.) -/
structure CloseResult where
  warned : Bool
  freed : Bool
deriving DecidableEq

/-- Model of `gnuplot_close`: see `CloseResult`. -/
def gnuplot_close (pcloseFailed : Bool) : CloseResult :=
  if pcloseFailed then { warned := true, freed := false }
  else { warned := false, freed := true }

/-- Modelled from the spec: `gnuplot_multiplot` is declared and documented in
`gnuplot_i.h` (lines 157-169) but its body is not among the sources.  Per the
spec it toggles the session's multiplot flag and forwards `set multiplot
[opts]`, or the disabling counterpart when already in multiplot mode. -/
def gnuplot_multiplot (h : gnuplot_ctrl) (opt : String) : Sent × gnuplot_ctrl :=
  if h.multiplot then
    (gnuplot_cmd (Line.text "unset multiplot"), { h with multiplot := false })
  else
    (gnuplot_cmd (Line.text ("set multiplot " ++ opt)), { h with multiplot := true })

/-- The verb expression shared by all seven plot functions (e.g.
gnuplot_i.c:132): `(handle->nplots > 0) ? "replot" : "plot"`.  Note it reads
only `nplots`; the `multiplot` field is not consulted anywhere in
`gnuplot_i.c`. -/
def plotCmd (h : gnuplot_ctrl) : String :=
  if h.nplots > 0 then "replot" else "plot"

/-- One header clause, `'-' title "<t>" with <style>`, as produced by the
format string `'-' title \"%s\" with %s` of the plot functions. -/
def clause (t style : String) : String :=
  "\x27-\x27 title \"" ++ t ++ "\" with " ++ style

/-- A full single-series header, `sprintf("%s '-' title \"%s\" with %s", cmd,
title, pstyle)` (gnuplot_i.c:135-136 and analogues). -/
def singleHeader (cmd t style : String) : String :=
  cmd ++ " " ++ clause t style

/-- The C loop `for (i = 0; i < n; i++) ... d[i]`: reads the first `n`
entries; `none` models the out-of-bounds read when the array has fewer than
`n` entries. -/
def readN (d : List α) (n : Nat) : Option (List α) :=
  if n ≤ d.length then some (d.take n) else none

/-- Model of `gnuplot_plot_x` (gnuplot_i.c:124-144).  Guard: null handle,
null data or `n < 1` returns immediately.  Then one header line (verb by
`plotCmd`, title defaulting to `"(none)"`, current style), `n` data records,
one `e` marker — each through the flushing `gnuplot_cmd` — and
`handle->nplots++`. -/
def gnuplot_plot_x (handle : Option gnuplot_ctrl) (d : Option (List Float)) (n : Int)
    (title : Option String) : Outcome :=
  match handle, d with
  | none, _ => Outcome.ok [] none
  | some h, none => Outcome.ok [] (some h)
  | some h, some dv =>
    if n < 1 then Outcome.ok [] (some h)
    else
      match readN dv n.toNat with
      | none => Outcome.ub
      | some vals =>
        let t := match title with
          | none => "(none)"
          | some s => s
        Outcome.ok
          (gnuplot_cmd (Line.text (singleHeader (plotCmd h) t h.pstyle)) ::
            (vals.map (fun v => gnuplot_cmd (Line.rec1 v)) ++ [gnuplot_cmd (Line.text "e")]))
          (some { h with nplots := h.nplots + 1 })

/-- Model of `gnuplot_plot_xy` (gnuplot_i.c:199-220): like `gnuplot_plot_x`
with paired `x`/`y` arrays and two-column records. -/
def gnuplot_plot_xy (handle : Option gnuplot_ctrl) (x y : Option (List Float)) (n : Int)
    (title : Option String) : Outcome :=
  match handle, x, y with
  | none, _, _ => Outcome.ok [] none
  | some h, none, _ => Outcome.ok [] (some h)
  | some h, some _, none => Outcome.ok [] (some h)
  | some h, some xv, some yv =>
    if n < 1 then Outcome.ok [] (some h)
    else
      match readN xv n.toNat, readN yv n.toNat with
      | some xs, some ys =>
        let t := match title with
          | none => "(none)"
          | some s => s
        Outcome.ok
          (gnuplot_cmd (Line.text (singleHeader (plotCmd h) t h.pstyle)) ::
            (List.zipWith (fun a b => gnuplot_cmd (Line.rec2 a b)) xs ys ++
              [gnuplot_cmd (Line.text "e")]))
          (some { h with nplots := h.nplots + 1 })
      | _, _ => Outcome.ub

/-- Model of `gnuplot_plot_slope` (gnuplot_i.c:330-343).  There is no guard at
all: a null handle is dereferenced (`handle->nplots`), i.e. undefined
behavior.  Otherwise one header line carrying the symbolic expression, no data
phase, and `handle->nplots++`. -/
def gnuplot_plot_slope (handle : Option gnuplot_ctrl) (a b : Float)
    (title : Option String) : Outcome :=
  match handle with
  | none => Outcome.ub
  | some h =>
    let t := match title with
      | none => "(none)"
      | some s => s
    Outcome.ok [gnuplot_cmd (Line.slopeExpr (plotCmd h) a b t h.pstyle)]
      (some { h with nplots := h.nplots + 1 })

/-- Model of `gnuplot_plot_equation` (gnuplot_i.c:345-356).  No guard (null
handle is dereferenced); one header line `"%s %s title \"%s\" with %s"`
carrying the equation text, no data phase, `handle->nplots++`. -/
def gnuplot_plot_equation (handle : Option gnuplot_ctrl) (equation : String)
    (title : Option String) : Outcome :=
  match handle with
  | none => Outcome.ub
  | some h =>
    let t := match title with
      | none => "(none)"
      | some s => s
    Outcome.ok
      [gnuplot_cmd (Line.text (plotCmd h ++ " " ++ equation ++ " title \"" ++ t ++
        "\" with " ++ h.pstyle))]
      (some { h with nplots := h.nplots + 1 })

/-- Result of scanning the first `l` entries of a nullable-pointer array, as
the loops `for (i = 0; i < l; i++) if (d[i] == NULL) return;` do: `oob` is a
read past the end of the array (undefined behavior), `foundNull` is a clean
early return on a null entry, `all xs` collects the `l` non-null entries. -/
inductive ScanRes (α : Type) where
  | oob
  | foundNull
  | all (xs : List α)

/-- The null-entry scan of the multi-series emitters (e.g. gnuplot_i.c:155-158):
reads entries in order and stops at the first null. -/
def scanPtrs : List (Option α) → Nat → ScanRes α
  | _, 0 => ScanRes.all []
  | [], _ + 1 => ScanRes.oob
  | none :: _, _ + 1 => ScanRes.foundNull
  | some x :: rest, k + 1 =>
    match scanPtrs rest k with
    | ScanRes.oob => ScanRes.oob
    | ScanRes.foundNull => ScanRes.foundNull
    | ScanRes.all xs => ScanRes.all (x :: xs)

/-- The title-defaulting loop of the multi-series emitters (e.g.
gnuplot_i.c:166-168): for `i < l`, `title[i] = (title[i] == NULL) ? "(none)" :
title[i]`.  `none` models the out-of-bounds access when the title array has
fewer than `l` entries (there is no length check in the C code). -/
def readDefaults : List (Option String) → Nat → Option (List String)
  | _, 0 => some []
  | [], _ + 1 => none
  | t :: rest, k + 1 =>
    match readDefaults rest k with
    | none => none
    | some r =>
      some ((match t with | none => "(none)" | some s => s) :: r)

/-- Result of assembling a multi-series header into `char buf[2048]` via
`char tmp[128]`: `ub` is a `sprintf` overflow of one of the two fixed buffers,
`tooLong` is the clean early return when the `strlen(buf) + strlen(tmp) <
2047` check fails, `ok` is the assembled header text. -/
inductive HeaderRes where
  | ub
  | tooLong
  | ok (s : String)
deriving DecidableEq

/-- The header-append loop (e.g. gnuplot_i.c:175-184): for each further title,
`sprintf(tmp, ", '-' title \"%s\" with %s", title[i], pstyle)` (overflow of
`tmp[128]` if the formatted clause is 128 bytes or longer), then append to
`buf` if the length check passes, else return. -/
def buildHeaderAux (buf style : String) : List String → HeaderRes
  | [] => HeaderRes.ok buf
  | t :: rest =>
    let tmp := ", " ++ clause t style
    if 128 ≤ tmp.length then HeaderRes.ub
    else if buf.length + tmp.length < 2047 then buildHeaderAux (buf ++ tmp) style rest
    else HeaderRes.tooLong

/-- The full multi-series header build (e.g. gnuplot_i.c:171-184): first
clause via `sprintf(buf, "%s '-' title \"%s\" with %s", cmd, title[0],
pstyle)` into `buf[2048]`, then the append loop over the remaining titles.
The `[]` case cannot arise (the callers have `l ≥ 1`); it is mapped to the
out-of-bounds read of `title[0]`. -/
def mkHeader (cmd style : String) : List String → HeaderRes
  | [] => HeaderRes.ub
  | t :: rest =>
    let buf := singleHeader cmd t style
    if 2048 ≤ buf.length then HeaderRes.ub
    else buildHeaderAux buf style rest

/-- One series' data burst: `n` one-column records then the `e` marker, all
through the flushing `gnuplot_cmd` (e.g. gnuplot_i.c:188-194). -/
def dataBlock1 (vals : List Float) : List Sent :=
  vals.map (fun v => gnuplot_cmd (Line.rec1 v)) ++ [gnuplot_cmd (Line.text "e")]

/-- The data phase of `gnuplot_plot_multi_x`: for each of the `l` rows, read
`d[i][0..n-1]` (`none` on an out-of-bounds read) and emit its burst. -/
def dataBlocks (rows : List (List Float)) (n : Nat) : Option (List Sent) :=
  match rows with
  | [] => some []
  | r :: rest =>
    match readN r n, dataBlocks rest n with
    | some vals, some more => some (dataBlock1 vals ++ more)
    | _, _ => none

/-- Model of `gnuplot_plot_multi_x` (gnuplot_i.c:146-197).  Guard: null
handle/data, `n < 1` or `l < 1` returns immediately; then the null-entry scan
over `d[0..l-1]`; then title handling — N.B. when `title == NULL` the C code
executes `title[i] = "(none)"`, a write through the null pointer (undefined
behavior), and when `title` is non-null it reads `title[0..l-1]` with no
length check; then the bounded header build; then `l` data bursts and
`handle->nplots += l`. -/
def gnuplot_plot_multi_x (handle : Option gnuplot_ctrl) (d : Option (List (Option (List Float))))
    (n l : Int) (title : Option (List (Option String))) : Outcome :=
  match handle, d with
  | none, _ => Outcome.ok [] none
  | some h, none => Outcome.ok [] (some h)
  | some h, some dv =>
    if n < 1 ∨ l < 1 then Outcome.ok [] (some h)
    else
      match scanPtrs dv l.toNat with
      | ScanRes.oob => Outcome.ub
      | ScanRes.foundNull => Outcome.ok [] (some h)
      | ScanRes.all rows =>
        match title with
        | none => Outcome.ub
        | some ts =>
          match readDefaults ts l.toNat with
          | none => Outcome.ub
          | some realTitles =>
            match mkHeader (plotCmd h) h.pstyle realTitles with
            | HeaderRes.ub => Outcome.ub
            | HeaderRes.tooLong => Outcome.ok [] (some h)
            | HeaderRes.ok hdr =>
              match dataBlocks rows n.toNat with
              | none => Outcome.ub
              | some blocks =>
                Outcome.ok (gnuplot_cmd (Line.text hdr) :: blocks)
                  (some { h with nplots := h.nplots + l })

/-- One series' data burst for the shared-x shape: records `x[j] y[i][j]` for
`j < n`, then `e` (gnuplot_i.c:265-271). -/
def dataBlock2 (xs ys : List Float) : List Sent :=
  List.zipWith (fun a b => gnuplot_cmd (Line.rec2 a b)) xs ys ++
    [gnuplot_cmd (Line.text "e")]

/-- The data phase of `gnuplot_plot_x_multi_y`: each row is paired with the
shared `x` array, `n` records each. -/
def dataBlocksSharedX (xs : List Float) (rows : List (List Float)) (n : Nat) :
    Option (List Sent) :=
  match rows with
  | [] => some []
  | r :: rest =>
    match readN xs n, readN r n, dataBlocksSharedX xs rest n with
    | some xv, some yv, some more => some (dataBlock2 xv yv ++ more)
    | _, _, _ => none

/-- Model of `gnuplot_plot_x_multi_y` (gnuplot_i.c:222-274): like
`gnuplot_plot_multi_x`, but with one shared explicit `x` array and two-column
records. -/
def gnuplot_plot_x_multi_y (handle : Option gnuplot_ctrl) (x : Option (List Float))
    (y : Option (List (Option (List Float)))) (n l : Int)
    (title : Option (List (Option String))) : Outcome :=
  match handle, x, y with
  | none, _, _ => Outcome.ok [] none
  | some h, none, _ => Outcome.ok [] (some h)
  | some h, some _, none => Outcome.ok [] (some h)
  | some h, some xv, some yv =>
    if n < 1 ∨ l < 1 then Outcome.ok [] (some h)
    else
      match scanPtrs yv l.toNat with
      | ScanRes.oob => Outcome.ub
      | ScanRes.foundNull => Outcome.ok [] (some h)
      | ScanRes.all rows =>
        match title with
        | none => Outcome.ub
        | some ts =>
          match readDefaults ts l.toNat with
          | none => Outcome.ub
          | some realTitles =>
            match mkHeader (plotCmd h) h.pstyle realTitles with
            | HeaderRes.ub => Outcome.ub
            | HeaderRes.tooLong => Outcome.ok [] (some h)
            | HeaderRes.ok hdr =>
              match dataBlocksSharedX xv rows n.toNat with
              | none => Outcome.ub
              | some blocks =>
                Outcome.ok (gnuplot_cmd (Line.text hdr) :: blocks)
                  (some { h with nplots := h.nplots + l })

/-- The per-series validation scan of `gnuplot_plot_multi_xy`
(gnuplot_i.c:286-289): for `i < l`, short-circuit test `x[i] == NULL || y[i]
== NULL || (n[i] < 1)`, returning cleanly when it fires; reading any of the
three arrays past its end is `oob`.  On success, collects the `(x[i], y[i],
n[i])` triples. -/
def scanXYN : List (Option (List Float)) → List (Option (List Float)) → List Int → Nat →
    ScanRes (List Float × List Float × Int)
  | _, _, _, 0 => ScanRes.all []
  | [], _, _, _ + 1 => ScanRes.oob
  | none :: _, _, _, _ + 1 => ScanRes.foundNull
  | some _ :: _, [], _, _ + 1 => ScanRes.oob
  | some _ :: _, none :: _, _, _ + 1 => ScanRes.foundNull
  | some _ :: _, some _ :: _, [], _ + 1 => ScanRes.oob
  | some xv :: xr, some yv :: yr, ni :: nr, k + 1 =>
    if ni < 1 then ScanRes.foundNull
    else
      match scanXYN xr yr nr k with
      | ScanRes.oob => ScanRes.oob
      | ScanRes.foundNull => ScanRes.foundNull
      | ScanRes.all rest => ScanRes.all ((xv, yv, ni) :: rest)

/-- The data phase of `gnuplot_plot_multi_xy`: for each series its own point
count `n[i]` (gnuplot_i.c:319-325). -/
def dataBlocksXY (rows : List (List Float × List Float × Int)) : Option (List Sent) :=
  match rows with
  | [] => some []
  | (xv, yv, ni) :: rest =>
    match readN xv ni.toNat, readN yv ni.toNat, dataBlocksXY rest with
    | some xs, some ys, some more => some (dataBlock2 xs ys ++ more)
    | _, _, _ => none

/-- Model of `gnuplot_plot_multi_xy` (gnuplot_i.c:276-328), the
independent-pairs shape: per-series `x[i]`, `y[i]`, `n[i]`.  Guard: null
handle/x/y/n or `l < 1` returns immediately; then the per-series scan; then
the same (unchecked-length) title handling and bounded header build as the
other multi emitters; then the data bursts and `handle->nplots += l`. -/
def gnuplot_plot_multi_xy (handle : Option gnuplot_ctrl)
    (x y : Option (List (Option (List Float)))) (ns : Option (List Int)) (l : Int)
    (title : Option (List (Option String))) : Outcome :=
  match handle, x, y, ns with
  | none, _, _, _ => Outcome.ok [] none
  | some h, none, _, _ => Outcome.ok [] (some h)
  | some h, some _, none, _ => Outcome.ok [] (some h)
  | some h, some _, some _, none => Outcome.ok [] (some h)
  | some h, some xv, some yv, some nv =>
    if l < 1 then Outcome.ok [] (some h)
    else
      match scanXYN xv yv nv l.toNat with
      | ScanRes.oob => Outcome.ub
      | ScanRes.foundNull => Outcome.ok [] (some h)
      | ScanRes.all rows =>
        match title with
        | none => Outcome.ub
        | some ts =>
          match readDefaults ts l.toNat with
          | none => Outcome.ub
          | some realTitles =>
            match mkHeader (plotCmd h) h.pstyle realTitles with
            | HeaderRes.ub => Outcome.ub
            | HeaderRes.tooLong => Outcome.ok [] (some h)
            | HeaderRes.ok hdr =>
              match dataBlocksXY rows with
              | none => Outcome.ub
              | some blocks =>
                Outcome.ok (gnuplot_cmd (Line.text hdr) :: blocks)
                  (some { h with nplots := h.nplots + l })

/-- The tail of a multi-series header: each further clause with its `", "`
separator, in emission order. -/
def joinTail (style : String) : List String → String
  | [] => ""
  | t :: rest => ", " ++ clause t style ++ joinTail style rest

/-- A multi-series header body: the titles' clauses joined by `", "`, every
clause carrying the same style. -/
def joinClauses (style : String) : List String → String
  | [] => ""
  | t :: rest => clause t style ++ joinTail style rest

/-! ## Helper lemmas -/

@[simp]
theorem flushed_gnuplot_cmd (l : Line) : (gnuplot_cmd l).flushed = true := rfl

@[simp]
theorem isData_rec1 (v : Float) : (gnuplot_cmd (Line.rec1 v)).isData = true := rfl

@[simp]
theorem isData_rec2 (a b : Float) : (gnuplot_cmd (Line.rec2 a b)).isData = true := rfl

theorem all_isData_map1 (vals : List Float) :
    (vals.map (fun v => gnuplot_cmd (Line.rec1 v))).all Sent.isData = true := by
  induction vals with
  | nil => rfl
  | cons v rest ih => simp [ih]

theorem all_isData_zip2 (xs : List Float) :
    ∀ ys : List Float,
      (List.zipWith (fun a b => gnuplot_cmd (Line.rec2 a b)) xs ys).all Sent.isData = true := by
  induction xs with
  | nil => intro ys; rfl
  | cons a xr ih =>
    intro ys
    cases ys with
    | nil => rfl
    | cons b yr => simp [List.zipWith, ih yr]

/-- C1: while the session's multiplot flag is enabled, every
series/equation/slope plot call emits the header verb `plot`, never `replot`,
even when the plot count is positive.  This FAILS on the code: the verb is
chosen by `(handle->nplots > 0) ? "replot" : "plot"` alone (gnuplot_i.c:132)
and the `multiplot` field is never read, although the `gnuplot_multiplot` doc
in gnuplot_i.h promises "gnuplot_i will only send plot instead of replot".
Concretely: enable multiplot on a session whose plot count is 1; the next
`gnuplot_plot_x` emits `replot`. -/
theorem multiplot_replot_code_bug :
    ((gnuplot_multiplot ⟨1, "points", false⟩ "").2).multiplot = true ∧
    ((gnuplot_multiplot ⟨1, "points", false⟩ "").2).nplots = 1 ∧
    Outcome.firstText (gnuplot_plot_x (some (gnuplot_multiplot ⟨1, "points", false⟩ "").2)
        (some [1.0]) 1 none)
      = some "replot \x27-\x27 title \"(none)\" with points" :=
  ⟨rfl, rfl, rfl⟩

/-- C2 counterexample: the claim says `gnuplot_close` releases the handle on
every path, including when `pclose` reports failure.  On that path the code
prints a diagnostic and returns early, so `free(handle)` never runs. -/
theorem close_leak_counterexample :
    gnuplot_close true = { warned := true, freed := false } ∧
    ¬ (gnuplot_close true).freed = true := by
  exact ⟨rfl, by decide⟩

/-- C2 (amended): `gnuplot_close` frees the handle exactly when `pclose`
succeeds; when termination reports failure it writes the diagnostic and
returns without releasing the handle. -/
theorem close_frees_iff_success (b : Bool) :
    (gnuplot_close b).warned = b ∧ (gnuplot_close b).freed = !b := by
  cases b <;> exact ⟨rfl, rfl⟩

/-- C4: each missing per-series title renders `"(none)"`, and a null title
array behaves as if every title were absent.  The single-series half and the
per-entry defaulting hold, but a null title array in a multi-series call is
a code bug: the C executes `title[i] = "(none)"` with `title == NULL`
(gnuplot_i.c:161-164), a write through a null pointer, modelled as undefined
behavior — not the claimed all-absent defaulting. -/
theorem null_title_array_code_bug :
    Outcome.firstText (gnuplot_plot_x (some ⟨0, "points", false⟩) (some [1.0]) 1 none)
      = some "plot \x27-\x27 title \"(none)\" with points" ∧
    readDefaults [none, some "t"] 2 = some ["(none)", "t"] ∧
    gnuplot_plot_multi_x (some ⟨0, "points", false⟩) (some [some [1.0]]) 1 1 none
      = Outcome.ub :=
  ⟨rfl, rfl, rfl⟩

/-- C9: a `gnuplot_setstyle` argument outside the fixed allow-list makes the
style the default `"points"` with a warning and no failure; an argument in
the allow-list becomes the style verbatim. -/
theorem setstyle_allowlist_or_default (h : gnuplot_ctrl) (s : String) :
    (s ∉ styleAllowList → gnuplot_setstyle h s = (true, { h with pstyle := "points" })) ∧
    (s ∈ styleAllowList → gnuplot_setstyle h s = (false, { h with pstyle := s })) := by
  constructor <;> intro hm <;> simp [gnuplot_setstyle, hm]

/-- Witness for C9 at the spec's own example `"bogus"` and at `"lines"`. -/
theorem setstyle_allowlist_or_default_witness :
    gnuplot_setstyle ⟨0, "points", false⟩ "bogus" = (true, ⟨0, "points", false⟩) ∧
    gnuplot_setstyle ⟨0, "points", false⟩ "lines" = (false, ⟨0, "lines", false⟩) :=
  ⟨(setstyle_allowlist_or_default ⟨0, "points", false⟩ "bogus").1 (by decide),
   (setstyle_allowlist_or_default ⟨0, "points", false⟩ "lines").2 (by decide)⟩

/-- C10: `gnuplot_plot_slope` and `gnuplot_plot_equation` perform no argument
validation: for every session state they emit exactly one header line carrying
the symbolic expression, no data records and no `e` marker, and increment the
plot count by exactly 1; with a null handle they dereference it (undefined
behavior), whereas the data-series emitters (`gnuplot_plot_x` shown) reject a
null handle as a clean no-op — so a non-null handle is a precondition for
these two calls to be safe. -/
theorem slope_equation_no_validation :
    (∀ (h : gnuplot_ctrl) (a b : Float) (t : Option String),
      gnuplot_plot_slope (some h) a b t =
        Outcome.ok [gnuplot_cmd (Line.slopeExpr (plotCmd h) a b
            (match t with | none => "(none)" | some s => s) h.pstyle)]
          (some { h with nplots := h.nplots + 1 })) ∧
    (∀ (h : gnuplot_ctrl) (eq : String) (t : Option String),
      gnuplot_plot_equation (some h) eq t =
        Outcome.ok [gnuplot_cmd (Line.text (plotCmd h ++ " " ++ eq ++ " title \"" ++
            (match t with | none => "(none)" | some s => s) ++ "\" with " ++ h.pstyle))]
          (some { h with nplots := h.nplots + 1 })) ∧
    (∀ (a b : Float) (t : Option String), gnuplot_plot_slope none a b t = Outcome.ub) ∧
    (∀ (eq : String) (t : Option String), gnuplot_plot_equation none eq t = Outcome.ub) ∧
    (∀ (d : Option (List Float)) (n : Int) (t : Option String),
      gnuplot_plot_x none d n t = Outcome.ok [] none) :=
  ⟨fun _ _ _ _ => rfl, fun _ _ _ => rfl, fun _ _ _ => rfl, fun _ _ => rfl, fun _ _ _ => rfl⟩

/-- C8: after `gnuplot_resetplot` the plot count is 0, so the next plot call
emits the verb `plot` regardless of how large the count was before; the reset
leaves the style (and the multiplot flag) unchanged and sends no command, so
previously set labels are untouched. -/
theorem resetplot_forces_plot_verb :
    (∀ h : gnuplot_ctrl,
      (gnuplot_resetplot h).nplots = 0 ∧
      (gnuplot_resetplot h).pstyle = h.pstyle ∧
      (gnuplot_resetplot h).multiplot = h.multiplot ∧
      plotCmd (gnuplot_resetplot h) = "plot") ∧
    (∀ (h : gnuplot_ctrl) (d : List Float) (n : Int) (t : Option String),
      1 ≤ n → n.toNat ≤ d.length →
      Outcome.firstText (gnuplot_plot_x (some (gnuplot_resetplot h)) (some d) n t) =
        some (singleHeader "plot" (match t with | none => "(none)" | some s => s) h.pstyle)) ∧
    (∀ (h : gnuplot_ctrl) (eq : String) (t : Option String),
      Outcome.firstText (gnuplot_plot_equation (some (gnuplot_resetplot h)) eq t) =
        some ("plot" ++ " " ++ eq ++ " title \"" ++
          (match t with | none => "(none)" | some s => s) ++ "\" with " ++ h.pstyle)) := by
  refine ⟨fun h => ⟨rfl, rfl, rfl, rfl⟩, ?_, fun h eq t => rfl⟩
  intro h d n t hn hlen
  have h1 : ¬ n < 1 := by omega
  simp [gnuplot_plot_x, readN, hlen, h1, Outcome.firstText, gnuplot_cmd,
    gnuplot_resetplot, plotCmd]

/-- Witness for C8: a session with plot count 7 is reset; the next
`gnuplot_plot_x` header uses `plot`. -/
theorem resetplot_forces_plot_verb_witness :
    Outcome.firstText (gnuplot_plot_x (some (gnuplot_resetplot ⟨7, "points", false⟩))
        (some [1.0]) 1 none) = some (singleHeader "plot" "(none)" "points") :=
  resetplot_forces_plot_verb.2.1 ⟨7, "points", false⟩ [1.0] 1 none (by decide) (by decide)

/-- C7: every valid single-series call with `n ≥ 1` samples emits a header,
then exactly `n` data records, then exactly one `e` marker, and the plot
count increases by exactly 1 (shown for `gnuplot_plot_x` and
`gnuplot_plot_xy`). -/
theorem single_series_data_phase :
    (∀ (h : gnuplot_ctrl) (d : List Float) (n : Int) (t : Option String),
      1 ≤ n → n.toNat ≤ d.length →
      ∃ recs : List Sent,
        gnuplot_plot_x (some h) (some d) n t =
          Outcome.ok (gnuplot_cmd (Line.text (singleHeader (plotCmd h)
              (match t with | none => "(none)" | some s => s) h.pstyle)) ::
            (recs ++ [gnuplot_cmd (Line.text "e")]))
            (some { h with nplots := h.nplots + 1 }) ∧
        recs.length = n.toNat ∧ recs.all Sent.isData = true) ∧
    (∀ (h : gnuplot_ctrl) (x y : List Float) (n : Int) (t : Option String),
      1 ≤ n → n.toNat ≤ x.length → n.toNat ≤ y.length →
      ∃ recs : List Sent,
        gnuplot_plot_xy (some h) (some x) (some y) n t =
          Outcome.ok (gnuplot_cmd (Line.text (singleHeader (plotCmd h)
              (match t with | none => "(none)" | some s => s) h.pstyle)) ::
            (recs ++ [gnuplot_cmd (Line.text "e")]))
            (some { h with nplots := h.nplots + 1 }) ∧
        recs.length = n.toNat ∧ recs.all Sent.isData = true) := by
  constructor
  · intro h d n t hn hlen
    refine ⟨(d.take n.toNat).map (fun v => gnuplot_cmd (Line.rec1 v)), ?_, ?_, ?_⟩
    · have h1 : ¬ n < 1 := by omega
      simp [gnuplot_plot_x, readN, hlen, h1]
    · simp [List.length_take]; omega
    · exact all_isData_map1 (d.take n.toNat)
  · intro h x y n t hn hx hy
    refine ⟨List.zipWith (fun a b => gnuplot_cmd (Line.rec2 a b))
      (x.take n.toNat) (y.take n.toNat), ?_, ?_, ?_⟩
    · have h1 : ¬ n < 1 := by omega
      simp [gnuplot_plot_xy, readN, hx, hy, h1]
    · simp [List.length_zipWith, List.length_take]; omega
    · exact all_isData_zip2 (x.take n.toNat) (y.take n.toNat)

/-- Witness for C7: the spec's own example `plotXY(x=[0,1,2], y=[0,1,4],
title="sq")` on a fresh session. -/
theorem single_series_data_phase_witness :
    ∃ recs : List Sent,
      gnuplot_plot_xy (some ⟨0, "points", false⟩) (some [0.0, 1.0, 2.0])
          (some [0.0, 1.0, 4.0]) 3 (some "sq") =
        Outcome.ok (gnuplot_cmd (Line.text (singleHeader "plot" "sq" "points")) ::
          (recs ++ [gnuplot_cmd (Line.text "e")])) (some ⟨1, "points", false⟩) ∧
      recs.length = 3 ∧ recs.all Sent.isData = true :=
  single_series_data_phase.2 ⟨0, "points", false⟩ [0.0, 1.0, 2.0] [0.0, 1.0, 4.0] 3
    (some "sq") (by decide) (by decide) (by decide)

theorem scanPtrs_map_some (rows : List α) :
    scanPtrs (rows.map some) rows.length = ScanRes.all rows := by
  induction rows with
  | nil => rfl
  | cons r rest ih => simp [scanPtrs, ih]

theorem readDefaults_map_some (ts : List String) :
    readDefaults (ts.map some) ts.length = some ts := by
  induction ts with
  | nil => rfl
  | cons t rest ih => simp [readDefaults, ih]

theorem readDefaults_short (ts : List (Option String)) :
    ∀ l : Nat, ts.length < l → readDefaults ts l = none := by
  induction ts with
  | nil =>
    intro l hl
    cases l with
    | zero => omega
    | succ k => rfl
  | cons t rest ih =>
    intro l hl
    cases l with
    | zero => omega
    | succ k =>
      have hk : rest.length < k := by
        simp only [List.length_cons] at hl
        omega
      simp [readDefaults, ih k hk]

theorem buildHeaderAux_ok (style : String) :
    ∀ (rest : List String) (buf out : String),
      buildHeaderAux buf style rest = HeaderRes.ok out →
      out = buf ++ joinTail style rest := by
  intro rest
  induction rest with
  | nil =>
    intro buf out hok
    simp only [buildHeaderAux] at hok
    cases hok
    simp [joinTail]
  | cons t more ih =>
    intro buf out hok
    simp only [buildHeaderAux] at hok
    split at hok
    · cases hok
    · split at hok
      · have h2 := ih _ _ hok
        rw [h2]
        simp [joinTail, String.append_assoc]
      · cases hok

theorem mkHeader_ok (cmd style : String) :
    ∀ (ts : List String) (out : String),
      mkHeader cmd style ts = HeaderRes.ok out →
      out = cmd ++ " " ++ joinClauses style ts := by
  intro ts out hok
  cases ts with
  | nil => cases hok
  | cons t rest =>
    simp only [mkHeader] at hok
    split at hok
    · cases hok
    · have h2 := buildHeaderAux_ok style rest _ _ hok
      rw [h2]
      simp [singleHeader, joinClauses, String.append_assoc]

theorem dataBlocks_total (n : Nat) :
    ∀ rows : List (List Float), (∀ r ∈ rows, n ≤ r.length) →
      ∃ blocks, dataBlocks rows n = some blocks := by
  intro rows
  induction rows with
  | nil => intro _; exact ⟨[], rfl⟩
  | cons r rest ih =>
    intro hall
    obtain ⟨b, hb⟩ := ih fun x hx => hall x (List.mem_cons_of_mem _ hx)
    have hr : n ≤ r.length := hall r (List.mem_cons_self _ _)
    exact ⟨dataBlock1 (r.take n) ++ b, by simp [dataBlocks, readN, hr, hb]⟩

theorem dataBlocksXY_total :
    ∀ rows : List (List Float × List Float × Int),
      (∀ r ∈ rows, r.2.2.toNat ≤ r.1.length ∧ r.2.2.toNat ≤ r.2.1.length) →
      ∃ blocks, dataBlocksXY rows = some blocks := by
  intro rows
  induction rows with
  | nil => intro _; exact ⟨[], rfl⟩
  | cons r rest ih =>
    intro hall
    obtain ⟨b, hb⟩ := ih fun x hx => hall x (List.mem_cons_of_mem _ hx)
    obtain ⟨h1, h2⟩ := hall r (List.mem_cons_self _ _)
    obtain ⟨xv, yv, ni⟩ := r
    exact ⟨dataBlock2 (xv.take ni.toNat) (yv.take ni.toNat) ++ b,
      by simp [dataBlocksXY, readN, h1, h2, hb]⟩

theorem scanXYN_map :
    ∀ rows : List (List Float × List Float × Int), (∀ r ∈ rows, 1 ≤ r.2.2) →
      scanXYN (rows.map (fun r => some r.1)) (rows.map (fun r => some r.2.1))
        (rows.map (fun r => r.2.2)) rows.length = ScanRes.all rows := by
  intro rows
  induction rows with
  | nil => intro _; rfl
  | cons r rest ih =>
    intro hall
    obtain ⟨xv, yv, ni⟩ := r
    have h1 : ¬ ni < 1 := by
      have := hall (xv, yv, ni) (List.mem_cons_self _ _)
      simp only at this
      omega
    simp [scanXYN, h1, ih fun x hx => hall x (List.mem_cons_of_mem _ hx)]

/-- C6: every multi-series call with `l ≥ 1` series that passes validation
(including the bounded header build) advances the plot count by exactly `l`
and emits a single header of exactly `l` inline-data clauses — one
`'-' title "<t>" with <style>` clause per series, joined by `", "`, all
sharing the session's current style (shown for `gnuplot_plot_multi_x` and
`gnuplot_plot_multi_xy`). -/
theorem multi_series_header_and_count :
    (∀ (h : gnuplot_ctrl) (rows : List (List Float)) (ts : List String) (n l : Int)
        (hdr : String),
      1 ≤ n → 1 ≤ l → rows.length = l.toNat → ts.length = l.toNat →
      (∀ r ∈ rows, n.toNat ≤ r.length) →
      mkHeader (plotCmd h) h.pstyle ts = HeaderRes.ok hdr →
      ∃ blocks,
        gnuplot_plot_multi_x (some h) (some (rows.map some)) n l (some (ts.map some)) =
          Outcome.ok (gnuplot_cmd (Line.text hdr) :: blocks)
            (some { h with nplots := h.nplots + l }) ∧
        hdr = plotCmd h ++ " " ++ joinClauses h.pstyle ts ∧
        ts.length = l.toNat) ∧
    (∀ (h : gnuplot_ctrl) (rows : List (List Float × List Float × Int)) (ts : List String)
        (l : Int) (hdr : String),
      1 ≤ l → rows.length = l.toNat → ts.length = l.toNat →
      (∀ r ∈ rows, 1 ≤ r.2.2 ∧ r.2.2.toNat ≤ r.1.length ∧ r.2.2.toNat ≤ r.2.1.length) →
      mkHeader (plotCmd h) h.pstyle ts = HeaderRes.ok hdr →
      ∃ blocks,
        gnuplot_plot_multi_xy (some h) (some (rows.map (fun r => some r.1)))
            (some (rows.map (fun r => some r.2.1))) (some (rows.map (fun r => r.2.2))) l
            (some (ts.map some)) =
          Outcome.ok (gnuplot_cmd (Line.text hdr) :: blocks)
            (some { h with nplots := h.nplots + l }) ∧
        hdr = plotCmd h ++ " " ++ joinClauses h.pstyle ts ∧
        ts.length = l.toNat) := by
  constructor
  · intro h rows ts n l hdr hn hl hrows hts hlen hmk
    obtain ⟨blocks, hblocks⟩ := dataBlocks_total n.toNat rows hlen
    refine ⟨blocks, ?_, mkHeader_ok _ _ _ _ hmk, hts⟩
    have h1 : ¬ (n < 1 ∨ l < 1) := by omega
    have hscan : scanPtrs (rows.map some) l.toNat = ScanRes.all rows := by
      rw [← hrows]; exact scanPtrs_map_some rows
    have hrd : readDefaults (ts.map some) l.toNat = some ts := by
      rw [← hts]; exact readDefaults_map_some ts
    simp [gnuplot_plot_multi_x, h1, hscan, hrd, hmk, hblocks]
  · intro h rows ts l hdr hl hrows hts hvalid hmk
    obtain ⟨blocks, hblocks⟩ := dataBlocksXY_total rows fun r hr => (hvalid r hr).2
    refine ⟨blocks, ?_, mkHeader_ok _ _ _ _ hmk, hts⟩
    have h1 : ¬ l < 1 := by omega
    have hscan : scanXYN (rows.map (fun r => some r.1)) (rows.map (fun r => some r.2.1))
        (rows.map (fun r => r.2.2)) l.toNat = ScanRes.all rows := by
      rw [← hrows]; exact scanXYN_map rows fun r hr => (hvalid r hr).1
    have hrd : readDefaults (ts.map some) l.toNat = some ts := by
      rw [← hts]; exact readDefaults_map_some ts
    simp [gnuplot_plot_multi_xy, h1, hscan, hrd, hmk, hblocks]

/-- Witness for C6: two one-point series with titles `"a"`, `"b"` on a fresh
session; the header carries two comma-joined clauses and the plot count
becomes 2. -/
theorem multi_series_header_and_count_witness :
    ∃ blocks,
      gnuplot_plot_multi_x (some ⟨0, "points", false⟩)
          (some [some [1.0], some [2.0]]) 1 2 (some [some "a", some "b"]) =
        Outcome.ok (gnuplot_cmd (Line.text
            "plot \x27-\x27 title \"a\" with points, \x27-\x27 title \"b\" with points") ::
            blocks)
          (some ⟨2, "points", false⟩) ∧
      "plot \x27-\x27 title \"a\" with points, \x27-\x27 title \"b\" with points" =
        plotCmd ⟨0, "points", false⟩ ++ " " ++ joinClauses "points" ["a", "b"] ∧
      (["a", "b"] : List String).length = (2 : Int).toNat :=
  multi_series_header_and_count.1 ⟨0, "points", false⟩ [[1.0], [2.0]] ["a", "b"] 1 2
    "plot \x27-\x27 title \"a\" with points, \x27-\x27 title \"b\" with points"
    (by decide) (by decide) (by decide) (by decide) (by simp) (by rfl)

/-- C3 counterexample: the claim says a `gnuplot_plot_multi_xy` call whose
title array is shorter than the number of series returns immediately with
zero bytes sent and the session unchanged.  In the C code the title-array
length is never checked: with `l = 2` valid series and a 1-entry title array
the loop reads `title[1]` out of bounds (undefined behavior), which is not a
clean immediate return. -/
theorem multi_xy_title_mismatch_counterexample :
    gnuplot_plot_multi_xy (some ⟨0, "points", false⟩)
        (some [some [1.0], some [2.0]]) (some [some [1.0], some [2.0]])
        (some [1, 1]) 2 (some [some "a"]) = Outcome.ub ∧
    Outcome.ub ≠ Outcome.ok [] (some ⟨0, "points", false⟩) :=
  ⟨rfl, fun hc => Outcome.noConfusion hc⟩

/-- C3 (amended): for every series-plot call — all five emitters — a null
handle, a null data pointer (`d`/`x`/`y`/`n`), a non-positive point count, a
non-positive series count, or a series with a null `x[i]`/`y[i]` or
non-positive `n[i]` (reached by the validation scan) makes the call return
immediately with zero bytes sent and the session state unchanged, and no
error propagates; the title-array length, however, is NOT validated — for
`gnuplot_plot_multi_xy` with valid series and a title array shorter than `l`
the call reads past the end of the title array (undefined behavior) instead
of rejecting the mismatch. -/
theorem series_plot_validation_amended :
    ((∀ (d : Option (List Float)) (n : Int) (t : Option String),
        gnuplot_plot_x none d n t = Outcome.ok [] none) ∧
      (∀ (h : gnuplot_ctrl) (n : Int) (t : Option String),
        gnuplot_plot_x (some h) none n t = Outcome.ok [] (some h)) ∧
      (∀ (h : gnuplot_ctrl) (d : List Float) (n : Int) (t : Option String),
        n < 1 → gnuplot_plot_x (some h) (some d) n t = Outcome.ok [] (some h))) ∧
    ((∀ (x y : Option (List Float)) (n : Int) (t : Option String),
        gnuplot_plot_xy none x y n t = Outcome.ok [] none) ∧
      (∀ (h : gnuplot_ctrl) (y : Option (List Float)) (n : Int) (t : Option String),
        gnuplot_plot_xy (some h) none y n t = Outcome.ok [] (some h)) ∧
      (∀ (h : gnuplot_ctrl) (x : List Float) (n : Int) (t : Option String),
        gnuplot_plot_xy (some h) (some x) none n t = Outcome.ok [] (some h)) ∧
      (∀ (h : gnuplot_ctrl) (x y : List Float) (n : Int) (t : Option String),
        n < 1 → gnuplot_plot_xy (some h) (some x) (some y) n t = Outcome.ok [] (some h))) ∧
    ((∀ (d : Option (List (Option (List Float)))) (n l : Int)
          (t : Option (List (Option String))),
        gnuplot_plot_multi_x none d n l t = Outcome.ok [] none) ∧
      (∀ (h : gnuplot_ctrl) (n l : Int) (t : Option (List (Option String))),
        gnuplot_plot_multi_x (some h) none n l t = Outcome.ok [] (some h)) ∧
      (∀ (h : gnuplot_ctrl) (d : List (Option (List Float))) (n l : Int)
          (t : Option (List (Option String))),
        n < 1 ∨ l < 1 →
        gnuplot_plot_multi_x (some h) (some d) n l t = Outcome.ok [] (some h)) ∧
      (∀ (h : gnuplot_ctrl) (d : List (Option (List Float))) (n l : Int)
          (t : Option (List (Option String))),
        1 ≤ n → 1 ≤ l → scanPtrs d l.toNat = ScanRes.foundNull →
        gnuplot_plot_multi_x (some h) (some d) n l t = Outcome.ok [] (some h))) ∧
    ((∀ (x : Option (List Float)) (y : Option (List (Option (List Float)))) (n l : Int)
          (t : Option (List (Option String))),
        gnuplot_plot_x_multi_y none x y n l t = Outcome.ok [] none) ∧
      (∀ (h : gnuplot_ctrl) (y : Option (List (Option (List Float)))) (n l : Int)
          (t : Option (List (Option String))),
        gnuplot_plot_x_multi_y (some h) none y n l t = Outcome.ok [] (some h)) ∧
      (∀ (h : gnuplot_ctrl) (x : List Float) (n l : Int)
          (t : Option (List (Option String))),
        gnuplot_plot_x_multi_y (some h) (some x) none n l t = Outcome.ok [] (some h)) ∧
      (∀ (h : gnuplot_ctrl) (x : List Float) (y : List (Option (List Float))) (n l : Int)
          (t : Option (List (Option String))),
        n < 1 ∨ l < 1 →
        gnuplot_plot_x_multi_y (some h) (some x) (some y) n l t = Outcome.ok [] (some h)) ∧
      (∀ (h : gnuplot_ctrl) (x : List Float) (y : List (Option (List Float))) (n l : Int)
          (t : Option (List (Option String))),
        1 ≤ n → 1 ≤ l → scanPtrs y l.toNat = ScanRes.foundNull →
        gnuplot_plot_x_multi_y (some h) (some x) (some y) n l t =
          Outcome.ok [] (some h))) ∧
    ((∀ (x y : Option (List (Option (List Float)))) (ns : Option (List Int)) (l : Int)
          (t : Option (List (Option String))),
        gnuplot_plot_multi_xy none x y ns l t = Outcome.ok [] none) ∧
      (∀ (h : gnuplot_ctrl) (y : Option (List (Option (List Float))))
          (ns : Option (List Int)) (l : Int) (t : Option (List (Option String))),
        gnuplot_plot_multi_xy (some h) none y ns l t = Outcome.ok [] (some h)) ∧
      (∀ (h : gnuplot_ctrl) (x : List (Option (List Float))) (ns : Option (List Int))
          (l : Int) (t : Option (List (Option String))),
        gnuplot_plot_multi_xy (some h) (some x) none ns l t = Outcome.ok [] (some h)) ∧
      (∀ (h : gnuplot_ctrl) (x y : List (Option (List Float))) (l : Int)
          (t : Option (List (Option String))),
        gnuplot_plot_multi_xy (some h) (some x) (some y) none l t =
          Outcome.ok [] (some h)) ∧
      (∀ (h : gnuplot_ctrl) (x y : List (Option (List Float))) (ns : List Int)
          (t : Option (List (Option String))) (l : Int),
        l < 1 →
        gnuplot_plot_multi_xy (some h) (some x) (some y) (some ns) l t =
          Outcome.ok [] (some h)) ∧
      (∀ (h : gnuplot_ctrl) (x y : List (Option (List Float))) (ns : List Int)
          (l : Int) (t : Option (List (Option String))),
        1 ≤ l → scanXYN x y ns l.toNat = ScanRes.foundNull →
        gnuplot_plot_multi_xy (some h) (some x) (some y) (some ns) l t =
          Outcome.ok [] (some h)) ∧
      (∀ (h : gnuplot_ctrl) (rows : List (List Float × List Float × Int))
          (ts : List (Option String)) (l : Int),
        1 ≤ l → rows.length = l.toNat → (∀ r ∈ rows, 1 ≤ r.2.2) → ts.length < l.toNat →
        gnuplot_plot_multi_xy (some h) (some (rows.map (fun r => some r.1)))
          (some (rows.map (fun r => some r.2.1))) (some (rows.map (fun r => r.2.2))) l
          (some ts) = Outcome.ub)) := by
  refine ⟨⟨fun _ _ _ => rfl, fun _ _ _ => rfl, ?_⟩,
    ⟨fun _ _ _ _ => rfl, fun _ _ _ _ => rfl, fun _ _ _ _ => rfl, ?_⟩,
    ⟨fun _ _ _ _ => rfl, fun _ _ _ _ => rfl, ?_, ?_⟩,
    ⟨fun _ _ _ _ _ => rfl, fun _ _ _ _ _ => rfl, fun _ _ _ _ _ => rfl, ?_, ?_⟩,
    ⟨fun _ _ _ _ _ => rfl, fun _ _ _ _ _ => rfl, fun _ _ _ _ _ => rfl,
      fun _ _ _ _ _ => rfl, ?_, ?_, ?_⟩⟩
  · intro h d n t hn
    simp [gnuplot_plot_x, hn]
  · intro h x y n t hn
    simp [gnuplot_plot_xy, hn]
  · intro h d n l t hnl
    simp [gnuplot_plot_multi_x, hnl]
  · intro h d n l t hn hl hscan
    have h1 : ¬ (n < 1 ∨ l < 1) := by omega
    simp [gnuplot_plot_multi_x, h1, hscan]
  · intro h x y n l t hnl
    simp [gnuplot_plot_x_multi_y, hnl]
  · intro h x y n l t hn hl hscan
    have h1 : ¬ (n < 1 ∨ l < 1) := by omega
    simp [gnuplot_plot_x_multi_y, h1, hscan]
  · intro h x y ns t l hl
    simp [gnuplot_plot_multi_xy, hl]
  · intro h x y ns l t hl hscan
    have h1 : ¬ l < 1 := by omega
    simp [gnuplot_plot_multi_xy, h1, hscan]
  · intro h rows ts l hl hlen hpos hts
    have h1 : ¬ l < 1 := by omega
    have hscan : scanXYN (rows.map (fun r => some r.1)) (rows.map (fun r => some r.2.1))
        (rows.map (fun r => r.2.2)) l.toNat = ScanRes.all rows := by
      rw [← hlen]; exact scanXYN_map rows hpos
    have hrd : readDefaults ts l.toNat = none := readDefaults_short ts l.toNat hts
    simp [gnuplot_plot_multi_xy, h1, hscan, hrd]

/-- Witness for C3 (amended): a non-positive count is a clean no-op for
`gnuplot_plot_x`, a per-series `n[i] = 0` is a clean no-op for
`gnuplot_plot_multi_xy`, and the unchecked title length gives undefined
behavior at a concrete input distinct from the counterexample's. -/
theorem series_plot_validation_amended_witness :
    gnuplot_plot_x (some ⟨0, "points", false⟩) (some [1.0]) 0 none =
      Outcome.ok [] (some ⟨0, "points", false⟩) ∧
    gnuplot_plot_multi_xy (some ⟨0, "points", false⟩) (some [some [1.0]])
        (some [some [2.0]]) (some [0]) 1 (some [some "a"]) =
      Outcome.ok [] (some ⟨0, "points", false⟩) ∧
    gnuplot_plot_multi_xy (some ⟨0, "points", false⟩)
        (some [some [1.0], some [2.0]]) (some [some [3.0], some [4.0]])
        (some [1, 1]) 2 (some [some "a"]) = Outcome.ub :=
  ⟨series_plot_validation_amended.1.2.2 ⟨0, "points", false⟩ [1.0] 0 none (by decide),
   series_plot_validation_amended.2.2.2.2.2.2.2.2.2.1 ⟨0, "points", false⟩
     [some [1.0]] [some [2.0]] [0] 1 (some [some "a"]) (by decide) (by rfl),
   series_plot_validation_amended.2.2.2.2.2.2.2.2.2.2 ⟨0, "points", false⟩
     [([1.0], [3.0], 1), ([2.0], [4.0], 1)] [some "a"] 2
     (by decide) (by decide) (by simp) (by decide)⟩

theorem all_flushed_map1 (vals : List Float) :
    (vals.map (fun v => gnuplot_cmd (Line.rec1 v))).all (fun s => s.flushed) = true := by
  induction vals with
  | nil => rfl
  | cons v rest ih => simp [ih]

theorem all_flushed_zip2 (xs : List Float) :
    ∀ ys : List Float,
      (List.zipWith (fun a b => gnuplot_cmd (Line.rec2 a b)) xs ys).all
        (fun s => s.flushed) = true := by
  induction xs with
  | nil => intro ys; rfl
  | cons a xr ih =>
    intro ys
    cases ys with
    | nil => rfl
    | cons b yr => simp [List.zipWith, ih yr]

theorem dataBlock1_all_flushed (vals : List Float) :
    (dataBlock1 vals).all (fun s => s.flushed) = true := by
  simp [dataBlock1, List.all_append, all_flushed_map1]

theorem dataBlock2_all_flushed (xs ys : List Float) :
    (dataBlock2 xs ys).all (fun s => s.flushed) = true := by
  simp [dataBlock2, List.all_append, all_flushed_zip2 xs ys]

theorem dataBlocks_all_flushed :
    ∀ (rows : List (List Float)) (n : Nat) (blocks : List Sent),
      dataBlocks rows n = some blocks → blocks.all (fun s => s.flushed) = true := by
  intro rows
  induction rows with
  | nil =>
    intro n blocks hb
    cases hb
    rfl
  | cons r rest ih =>
    intro n blocks hb
    simp only [dataBlocks] at hb
    split at hb
    · rename_i vals more hv hm
      cases hb
      simp [List.all_append, dataBlock1_all_flushed, ih n more hm]
    · cases hb

theorem dataBlocksSharedX_all_flushed :
    ∀ (rows : List (List Float)) (xs : List Float) (n : Nat) (blocks : List Sent),
      dataBlocksSharedX xs rows n = some blocks →
      blocks.all (fun s => s.flushed) = true := by
  intro rows
  induction rows with
  | nil =>
    intro xs n blocks hb
    cases hb
    rfl
  | cons r rest ih =>
    intro xs n blocks hb
    simp only [dataBlocksSharedX] at hb
    split at hb
    · rename_i xv yv more hx hy hm
      cases hb
      simp [List.all_append, dataBlock2_all_flushed, ih xs n more hm]
    · cases hb

theorem dataBlocksXY_all_flushed :
    ∀ (rows : List (List Float × List Float × Int)) (blocks : List Sent),
      dataBlocksXY rows = some blocks → blocks.all (fun s => s.flushed) = true := by
  intro rows
  induction rows with
  | nil =>
    intro blocks hb
    cases hb
    rfl
  | cons r rest ih =>
    intro blocks hb
    obtain ⟨xv, yv, ni⟩ := r
    simp only [dataBlocksXY] at hb
    split at hb
    · rename_i xs ys more hx hy hm
      cases hb
      simp [List.all_append, dataBlock2_all_flushed, ih more hm]
    · cases hb

/-- C5 counterexample: the claim says the data phase uses the non-flushing
send variant for the data records, with one flushing send (the `e` marker)
per series.  In the code every data record goes through the flushing
`gnuplot_cmd`: in this one-sample `gnuplot_plot_x` call, all three lines —
header, the single data record, and `e` — are flushed. -/
theorem data_records_flushed_counterexample :
    (gnuplot_plot_x (some ⟨0, "points", false⟩) (some [1.0]) 1 none).sentLines.map
        (fun s => (s.isData, s.flushed)) = [(false, true), (true, true), (false, true)] :=
  rfl

/-- C5 (amended): a non-flushing variant (`gnuplot_printf`) is declared, but
the series emitters never use it: every line they send — headers, each data
record, and each `e` marker — goes through the flushing `gnuplot_cmd`, so the
channel is flushed once per line, not once per series. -/
theorem flush_per_line_amended :
    (∀ l : Line, (gnuplot_printf l).flushed = false) ∧
    (∀ l : Line, (gnuplot_cmd l).flushed = true) ∧
    (∀ handle d n t,
      ((gnuplot_plot_x handle d n t).sentLines.all (fun s => s.flushed)) = true) ∧
    (∀ handle x y n t,
      ((gnuplot_plot_xy handle x y n t).sentLines.all (fun s => s.flushed)) = true) ∧
    (∀ handle d n l t,
      ((gnuplot_plot_multi_x handle d n l t).sentLines.all (fun s => s.flushed)) = true) ∧
    (∀ handle x y n l t,
      ((gnuplot_plot_x_multi_y handle x y n l t).sentLines.all
        (fun s => s.flushed)) = true) ∧
    (∀ handle x y ns l t,
      ((gnuplot_plot_multi_xy handle x y ns l t).sentLines.all
        (fun s => s.flushed)) = true) := by
  refine ⟨fun l => rfl, fun l => rfl, ?_, ?_, ?_, ?_, ?_⟩
  · intro handle d n t
    cases handle with
    | none => rfl
    | some h =>
      cases d with
      | none => rfl
      | some dv =>
        simp only [gnuplot_plot_x]
        split
        · rfl
        · cases hr : readN dv n.toNat with
          | none => rfl
          | some vals =>
            simp [Outcome.sentLines, List.all_append, all_flushed_map1]
  · intro handle x y n t
    cases handle with
    | none => rfl
    | some h =>
      cases x with
      | none => rfl
      | some xv =>
        cases y with
        | none => rfl
        | some yv =>
          simp only [gnuplot_plot_xy]
          split
          · rfl
          · cases hx : readN xv n.toNat with
            | none => rfl
            | some xs =>
              cases hy : readN yv n.toNat with
              | none => rfl
              | some ys =>
                simp [Outcome.sentLines, List.all_append, all_flushed_zip2]
  · intro handle d n l t
    cases handle with
    | none => rfl
    | some h =>
      cases d with
      | none => rfl
      | some dv =>
        simp only [gnuplot_plot_multi_x]
        split
        · rfl
        · split
          · rfl
          · rfl
          · split
            · rfl
            · split
              · rfl
              · split
                · rfl
                · rfl
                · split
                  · rfl
                  · rename_i blocks hb
                    simp [Outcome.sentLines, dataBlocks_all_flushed _ _ _ hb]
  · intro handle x y n l t
    cases handle with
    | none => rfl
    | some h =>
      cases x with
      | none => rfl
      | some xv =>
        cases y with
        | none => rfl
        | some yv =>
          simp only [gnuplot_plot_x_multi_y]
          split
          · rfl
          · split
            · rfl
            · rfl
            · split
              · rfl
              · split
                · rfl
                · split
                  · rfl
                  · rfl
                  · split
                    · rfl
                    · rename_i blocks hb
                      simp [Outcome.sentLines, dataBlocksSharedX_all_flushed _ _ _ _ hb]
  · intro handle x y ns l t
    cases handle with
    | none => rfl
    | some h =>
      cases x with
      | none => rfl
      | some xv =>
        cases y with
        | none => rfl
        | some yv =>
          cases ns with
          | none => rfl
          | some nv =>
            simp only [gnuplot_plot_multi_xy]
            split
            · rfl
            · split
              · rfl
              · rfl
              · split
                · rfl
                · split
                  · rfl
                  · split
                    · rfl
                    · rfl
                    · split
                      · rfl
                      · rename_i blocks hb
                        simp [Outcome.sentLines, dataBlocksXY_all_flushed _ _ hb]
